import Mathlib

/-!
Shallow embedding of the Flappy Bird game loop in src/flappy_script.py.

The embedding follows the main game loop of the script: the structure
GState carries the module-level mutable variables that the loop reads and
writes (game_state, bird_y, bird_velocity, bird_angle, pipes, score,
die_sound_played, gameover_time, last_pipe, is_night_theme, running), and
one loop iteration is the function tick.  Quantities supplied by the
environment on a given iteration (the polled event list, the value of
pygame.time.get_ticks, the result of the sprite based pipe collision test,
and the random gap position drawn by random.randint) are passed in through
TickInput.  The collision test result is an input because it depends on
rotated sprite bounding boxes, which are pixel data outside the embedding;
the gap draw is an input because it is random, and theorems that need it
constrain it to the interval the script passes to random.randint.

Numeric representation: Python ints are modelled as Int.  bird_velocity is
a Python float in the script (it becomes fractional only through the
gravitational_force * 1.5 update, so every value it takes is an integer
multiple of one half, hence exactly representable both by a binary float
and by Rat); it is modelled as Rat.  Python int() applied to a float
truncates toward zero, modelled by pyInt.  The screen geometry constants
computed at startup (screen_width, game_area_height, the land height, the
scaled sprite sizes) depend on the device display, so they are parameters,
collected in Params.
-/

namespace FlappyBird

/-- Game states, the values of the variable game_state in the script. -/
inductive Mode where
  | GAME_START
  | GAME_PLAYING
  | GAME_OVER
  | GAME_RESTART
  deriving DecidableEq, Repr

/-- Sounds the script can play during one loop iteration. -/
inductive Sound where
  | wing
  | point
  | hit
  | die
  deriving DecidableEq, Repr

/-- Input events handled by the event loop of the script. -/
inductive GEvent where
  | quit
  | keyEscape
  | keySpace
  | fingerDown
  deriving DecidableEq, Repr

/-- Python int() applied to a float value: truncation toward zero, written
with floors (for a negative argument the ceiling equals the negated floor
of the negation). -/
def pyInt (q : ℚ) : ℤ := if 0 ≤ q then ⌊q⌋ else -⌊-q⌋

/-- gravitational_force = 5 in the script. -/
def gravitational_force : ℚ := 5

/-- max_upward_angle = 45. -/
def max_upward_angle : ℤ := 45

/-- max_downward_angle = -45. -/
def max_downward_angle : ℤ := -45

/-- downward_rotation_speed = 10. -/
def downward_rotation_speed : ℤ := 10

/-- scroll_speed default argument of background_setting, returned as
land_scroll_speed: 13 pixels per frame. -/
def land_scroll_speed : ℤ := 13

/-- pipe_speed = land_scroll_speed in the script. -/
def pipe_speed : ℤ := land_scroll_speed

/-- pipe_frequency = 3000 milliseconds. -/
def pipe_frequency : ℤ := 3000

/-- Device dependent geometry computed once at startup in the script. -/
structure Params where
  screen_width : ℤ
  game_area_height : ℤ
  land_height : ℤ
  bird_height : ℤ
  pipe_width : ℤ
  bird_y_orig : ℤ
  deriving DecidableEq, Repr

/-- The module level mutable variables read and written by the game loop. -/
structure GState where
  running : Bool
  game_state : Mode
  bird_y : ℤ
  bird_velocity : ℚ
  bird_angle : ℤ
  pipes : List (ℤ × ℤ)
  score : ℕ
  die_sound_played : Bool
  gameover_time : ℤ
  last_pipe : ℤ
  is_night_theme : Bool
  deriving DecidableEq, Repr

/-- Environment data consumed by one loop iteration: the polled events, the
clock value returned by pygame.time.get_ticks, the result of the sprite
based collision_detection call, and the random value drawn for a newly
spawned pipe gap center. -/
structure TickInput where
  events : List GEvent
  now : ℤ
  collision : Bool
  gapY : ℤ
  deriving DecidableEq, Repr

/-- usable_height = screen_height - land_height inside generate_pipe, where
the script passes game_area_height for screen_height. -/
def usable_height (p : Params) : ℤ := p.game_area_height - p.land_height

/-- min_gap_y = int(usable_height * 0.25).  The float product is exact, so
the int() call is truncation of a quarter of usable_height. -/
def min_gap_y (p : Params) : ℤ := pyInt ((usable_height p : ℚ) * (1 / 4))

/-- max_gap_y = int(usable_height * 0.75). -/
def max_gap_y (p : Params) : ℤ := pyInt ((usable_height p : ℚ) * (3 / 4))

/-- generate_pipe returns [pipe_x, gap_y] with pipe_x = screen_width and
gap_y = random.randint(min_gap_y, max_gap_y); the random draw r is an
input of the embedding. -/
def generate_pipe (p : Params) (r : ℤ) : ℤ × ℤ := (p.screen_width, r)

/-- One pipe advance: pipe[0] -= pipe_speed. -/
def movePipe (q : ℤ × ℤ) : ℤ × ℤ := (q.1 - pipe_speed, q.2)

/-- pipe_center = pipe[0] + pipe_top_img.get_width() / 2, a float in the
script because of the true division by 2. -/
def pipe_center (p : Params) (x : ℤ) : ℚ := (x : ℚ) + (p.pipe_width : ℚ) / 2

/-- The score test of the script: pipe_center <= screen_width / 2 and
pipe_center > screen_width / 2 - pipe_speed. -/
def crossesCenter (p : Params) (x : ℤ) : Bool :=
  decide (pipe_center p x ≤ (p.screen_width : ℚ) / 2) &&
    decide ((p.screen_width : ℚ) / 2 - (pipe_speed : ℚ) < pipe_center p x)

/-- The removal test of the script: pipe[0] < -pipe_top_img.get_width(). -/
def offscreen (p : Params) (q : ℤ × ℤ) : Bool := decide (q.1 < -p.pipe_width)

/-- The body of the pipe update loop.  For each pipe, in list order, the
script moves it left by pipe_speed, adds one to the score (and plays the
point sound) if the moved center satisfies the crossing test, and records
the index of the pipe in pipe_removal if the moved position is offscreen.
The function returns the moved list, the number of score increments, and
the recorded removal indices (which are therefore in increasing order,
starting at i). -/
def pipeLoopAux (p : Params) (i : ℕ) : List (ℤ × ℤ) → List (ℤ × ℤ) × ℕ × List ℕ
  | [] => ([], 0, [])
  | q :: rest =>
    let q1 := movePipe q
    let out := pipeLoopAux p (i + 1) rest
    (q1 :: out.1,
      (if crossesCenter p q1.1 then 1 else 0) + out.2.1,
      (if offscreen p q1 then [i] else []) ++ out.2.2)

/-- The removal pass of the script: for index in sorted(pipe_removal,
reverse=True): pipes.pop(index).  Since pipeLoopAux records indices in
increasing order, sorting in reverse is list reversal, and pop is
List.eraseIdx. -/
def applyRemovals (l : List (ℤ × ℤ)) (rem : List ℕ) : List (ℤ × ℤ) :=
  rem.reverse.foldl (fun acc i => acc.eraseIdx i) l

/-- Lines 586 to 610 of the script: bird_velocity += gravitational_force;
bird_y += int(bird_velocity); then the angle update, which sets the angle
to max_upward_angle while the new velocity is negative and otherwise
rotates downward by downward_rotation_speed, clamped at
max_downward_angle. -/
def birdPhysicsPlaying (s : GState) : GState :=
  let v1 := s.bird_velocity + gravitational_force
  let y1 := s.bird_y + pyInt v1
  let a1 := if v1 < 0 then max_upward_angle
    else max max_downward_angle (s.bird_angle - downward_rotation_speed)
  { s with bird_velocity := v1, bird_y := y1, bird_angle := a1 }

/-- Lines 619 to 623: if time_now - last_pipe > pipe_frequency, append
generate_pipe(...) and set last_pipe = time_now. -/
def spawnPipes (p : Params) (inp : TickInput) (s : GState) : GState :=
  if pipe_frequency < inp.now - s.last_pipe then
    { s with pipes := s.pipes ++ [generate_pipe p inp.gapY], last_pipe := inp.now }
  else s

/-- Lines 625 to 646: the pipe movement, scoring and removal pass.  The
point sound plays once per score increment. -/
def advancePipes (p : Params) (s : GState) : GState × List Sound :=
  let out := pipeLoopAux p 0 s.pipes
  ({ s with pipes := applyRemovals out.1 out.2.2, score := s.score + out.2.1 },
    List.replicate out.2.1 Sound.point)

/-- Lines 669 to 677: if collision and game_state != GAME_OVER, play the
hit and die sounds, enter GAME_OVER and set die_sound_played. -/
def pipeCollisionCheck (inp : TickInput) (s : GState) : GState × List Sound :=
  if inp.collision = true ∧ s.game_state ≠ Mode.GAME_OVER then
    ({ s with game_state := Mode.GAME_OVER, die_sound_played := true },
      [Sound.hit, Sound.die])
  else (s, [])

/-- Lines 679 to 687: if bird_y + bird_height > land_y (with land_y =
game_area_height - land_height) then, when not already in GAME_OVER, play
the hit and die sounds, enter GAME_OVER and set die_sound_played; in both
cases clamp the bird onto the land and zero the velocity. -/
def groundCheck (p : Params) (s : GState) : GState × List Sound :=
  let land_y := p.game_area_height - p.land_height
  if p.game_area_height - p.land_height < s.bird_y + p.bird_height then
    if s.game_state ≠ Mode.GAME_OVER then
      ({ s with
          game_state := Mode.GAME_OVER
          die_sound_played := true
          bird_y := land_y - p.bird_height
          bird_velocity := 0 },
        [Sound.hit, Sound.die])
    else
      ({ s with bird_y := land_y - p.bird_height, bird_velocity := 0 }, [])
  else (s, [])

/-- Lines 689 to 692: if bird_y < 0 then bird_y = 0 and bird_velocity = 0. -/
def ceilingClamp (s : GState) : GState :=
  if s.bird_y < 0 then { s with bird_y := 0, bird_velocity := 0 } else s

/-- The GAME_PLAYING branch of the loop body, in source order: gravity and
angle update, pipe spawning, pipe advance with scoring and removal, pipe
collision handling, land collision handling, ceiling clamp. -/
def playingStep (p : Params) (inp : TickInput) (s : GState) : GState × List Sound :=
  let s1 := birdPhysicsPlaying s
  let s2 := spawnPipes p inp s1
  let o3 := advancePipes p s2
  let o4 := pipeCollisionCheck inp o3.1
  let o5 := groundCheck p o4.1
  (ceilingClamp o5.1, o3.2 ++ o4.2 ++ o5.2)

/-- Lines 709 to 715: bird_velocity += gravitational_force * 1.5;
bird_y += int(bird_velocity); the angle rotates downward at twice
downward_rotation_speed, clamped at max_downward_angle. -/
def birdPhysicsGameOver (s : GState) : GState :=
  let v1 := s.bird_velocity + gravitational_force * (3 / 2)
  let y1 := s.bird_y + pyInt v1
  let a1 := max max_downward_angle (s.bird_angle - downward_rotation_speed * 2)
  { s with bird_velocity := v1, bird_y := y1, bird_angle := a1 }

/-- Lines 722 to 729: in GAME_OVER the bird is clamped onto the land when
it reaches it; there is no ceiling clamp in this branch. -/
def gameOverGroundClamp (p : Params) (s : GState) : GState :=
  let land_y := p.game_area_height - p.land_height
  if p.game_area_height - p.land_height < s.bird_y + p.bird_height then
    { s with bird_y := land_y - p.bird_height, bird_velocity := 0 }
  else s

/-- Lines 758 to 762: on the first GAME_OVER iteration gameover_time is
armed with the current clock value; on later iterations the state moves to
GAME_RESTART once strictly more than 2000 milliseconds have passed. -/
def gameOverTimer (inp : TickInput) (s : GState) : GState :=
  if s.gameover_time = 0 then { s with gameover_time := inp.now }
  else if 2000 < inp.now - s.gameover_time then
    { s with game_state := Mode.GAME_RESTART }
  else s

/-- The GAME_OVER branch of the loop body. -/
def gameOverStep (p : Params) (inp : TickInput) (s : GState) : GState × List Sound :=
  (gameOverTimer inp (gameOverGroundClamp p (birdPhysicsGameOver s)), [])

/-- Lines 763 to 789, the GAME_RESTART branch: toggle the theme, reload the
theme assets (which restores the parameter geometry, kept fixed here),
reset the bird position, velocity and angle, clear the pipe list, reset the
score, enter GAME_START and disarm the game over timer.  Note that
die_sound_played and last_pipe are not touched by this branch. -/
def restartStep (p : Params) (s : GState) : GState × List Sound :=
  ({ s with
      is_night_theme := !s.is_night_theme
      bird_y := p.bird_y_orig
      bird_velocity := 0
      bird_angle := 0
      pipes := []
      score := 0
      game_state := Mode.GAME_START
      gameover_time := 0 }, [])

/-- Lines 518 to 555, the handling of a single polled event.  QUIT and the
escape key stop the loop.  The space key and a touch start the game from
GAME_START and make the bird jump while GAME_PLAYING (velocity -40, angle
max_upward_angle, wing sound); in GAME_OVER and GAME_RESTART they do
nothing. -/
def handleEvent (s : GState) (e : GEvent) : GState × List Sound :=
  match e with
  | GEvent.quit => ({ s with running := false }, [])
  | GEvent.keyEscape => ({ s with running := false }, [])
  | GEvent.keySpace =>
    match s.game_state with
    | Mode.GAME_START =>
      ({ s with
          game_state := Mode.GAME_PLAYING
          bird_velocity := -40
          bird_angle := max_upward_angle }, [Sound.wing])
    | Mode.GAME_PLAYING =>
      ({ s with bird_velocity := -40, bird_angle := max_upward_angle },
        [Sound.wing])
    | _ => (s, [])
  | GEvent.fingerDown =>
    match s.game_state with
    | Mode.GAME_START =>
      ({ s with
          game_state := Mode.GAME_PLAYING
          bird_velocity := -40
          bird_angle := max_upward_angle }, [Sound.wing])
    | Mode.GAME_PLAYING =>
      ({ s with bird_velocity := -40, bird_angle := max_upward_angle },
        [Sound.wing])
    | _ => (s, [])

/-- The event loop: events are handled in poll order. -/
def processEvents (s : GState) : List GEvent → GState × List Sound
  | [] => (s, [])
  | e :: rest =>
    let o1 := handleEvent s e
    let o2 := processEvents o1.1 rest
    (o2.1, o1.2 ++ o2.2)

/-- One iteration of the game loop: handle the polled events, then run the
branch selected by the current game_state.  The GAME_START branch only
animates and scrolls, which touches no tracked variable. -/
def tick (p : Params) (inp : TickInput) (s : GState) : GState × List Sound :=
  let es := processEvents s inp.events
  let step :=
    match es.1.game_state with
    | Mode.GAME_START => (es.1, ([] : List Sound))
    | Mode.GAME_PLAYING => playingStep p inp es.1
    | Mode.GAME_OVER => gameOverStep p inp es.1
    | Mode.GAME_RESTART => restartStep p es.1
  (step.1, es.2 ++ step.2)

/-- The state of the module level variables when the loop is first entered,
at clock value now0: lines 482 to 512.  In particular last_pipe =
pygame.time.get_ticks() - pipe_frequency. -/
def initState (p : Params) (now0 : ℤ) : GState where
  running := true
  game_state := Mode.GAME_START
  bird_y := p.bird_y_orig
  bird_velocity := 0
  bird_angle := 0
  pipes := []
  score := 0
  die_sound_played := false
  gameover_time := 0
  last_pipe := now0 - pipe_frequency
  is_night_theme := false

/-- A concrete geometry used by witnesses and counterexamples, of the
realistic proportions the script computes on a 400 by 769 display. -/
def pDemo : Params where
  screen_width := 400
  game_area_height := 600
  land_height := 100
  bird_height := 50
  pipe_width := 60
  bird_y_orig := 200

/-- A concrete GAME_PLAYING state used by witnesses and counterexamples. -/
def demoPlaying : GState where
  running := true
  game_state := Mode.GAME_PLAYING
  bird_y := 0
  bird_velocity := 0
  bird_angle := 0
  pipes := []
  score := 0
  die_sound_played := false
  gameover_time := 0
  last_pipe := 0
  is_night_theme := false

/-- A small geometry whose usable height 10 is not divisible by 4, so the
int() truncation in generate_pipe bites. -/
def pNarrow : Params where
  screen_width := 100
  game_area_height := 12
  land_height := 2
  bird_height := 3
  pipe_width := 10
  bird_y_orig := 0

/-- A concrete GAME_OVER state whose timer was armed at millisecond 1000. -/
def demoOverArmed : GState :=
  { demoPlaying with game_state := Mode.GAME_OVER, gameover_time := 1000 }

/-- A concrete GAME_OVER state reached with upward velocity -40, as after a
jump into a pipe: the game over timer was armed at millisecond 5000. -/
def demoOverFalling : GState :=
  { demoPlaying with
      game_state := Mode.GAME_OVER
      bird_velocity := -40
      gameover_time := 5000 }

/-- A concrete GAME_RESTART state with a nontrivial score, pipe list and
bird state, and with the die sound flag set. -/
def demoRestart : GState :=
  { demoPlaying with
      game_state := Mode.GAME_RESTART
      score := 7
      pipes := [(100, 250), (257, 180)]
      bird_y := 444
      bird_velocity := 9
      bird_angle := -20
      gameover_time := 4000
      die_sound_played := true }

/-! ### Helper lemmas about the event loop -/

/-- Event handling never touches the pipe list, the score, the vertical
position, the die sound flag, the game over timer, the spawn timer or the
theme flag: events only affect game_state, bird_velocity, bird_angle and
running. -/
theorem handleEvent_preserved (s : GState) (e : GEvent) :
    (handleEvent s e).1.pipes = s.pipes ∧
      (handleEvent s e).1.score = s.score ∧
      (handleEvent s e).1.bird_y = s.bird_y ∧
      (handleEvent s e).1.die_sound_played = s.die_sound_played ∧
      (handleEvent s e).1.gameover_time = s.gameover_time ∧
      (handleEvent s e).1.last_pipe = s.last_pipe ∧
      (handleEvent s e).1.is_night_theme = s.is_night_theme := by
  cases e <;> cases hs : s.game_state <;> simp [handleEvent, hs]

/-- Whole event loop version of handleEvent_preserved. -/
theorem processEvents_preserved (evs : List GEvent) : ∀ s : GState,
    (processEvents s evs).1.pipes = s.pipes ∧
      (processEvents s evs).1.score = s.score ∧
      (processEvents s evs).1.bird_y = s.bird_y ∧
      (processEvents s evs).1.die_sound_played = s.die_sound_played ∧
      (processEvents s evs).1.gameover_time = s.gameover_time ∧
      (processEvents s evs).1.last_pipe = s.last_pipe ∧
      (processEvents s evs).1.is_night_theme = s.is_night_theme := by
  induction evs with
  | nil => intro s; exact ⟨rfl, rfl, rfl, rfl, rfl, rfl, rfl⟩
  | cons e rest ih =>
    intro s
    have h1 := handleEvent_preserved s e
    have h2 := ih (handleEvent s e).1
    simp only [processEvents]
    exact ⟨h2.1.trans h1.1, h2.2.1.trans h1.2.1, h2.2.2.1.trans h1.2.2.1,
      h2.2.2.2.1.trans h1.2.2.2.1, h2.2.2.2.2.1.trans h1.2.2.2.2.1,
      h2.2.2.2.2.2.1.trans h1.2.2.2.2.2.1, h2.2.2.2.2.2.2.trans h1.2.2.2.2.2.2⟩

/-- An event cannot change the game state unless the state is GAME_START
(only the START to PLAYING transition is driven by input). -/
theorem handleEvent_game_state (s : GState) (e : GEvent)
    (h : s.game_state ≠ Mode.GAME_START) :
    (handleEvent s e).1.game_state = s.game_state := by
  cases e <;> cases hs : s.game_state <;> simp [handleEvent, hs] <;> exact absurd hs h

/-- Whole event loop version of handleEvent_game_state. -/
theorem processEvents_game_state (evs : List GEvent) : ∀ s : GState,
    s.game_state ≠ Mode.GAME_START →
      (processEvents s evs).1.game_state = s.game_state := by
  induction evs with
  | nil => intro s _; rfl
  | cons e rest ih =>
    intro s h
    have h1 := handleEvent_game_state s e h
    simp only [processEvents]
    exact (ih (handleEvent s e).1 (by rw [h1]; exact h)).trans h1

/-- In GAME_OVER and GAME_RESTART a jump input (space key or touch) is a
complete no-op: the state is returned unchanged and no sound plays. -/
theorem handleEvent_jump_inactive (s : GState) (e : GEvent)
    (hm : s.game_state = Mode.GAME_OVER ∨ s.game_state = Mode.GAME_RESTART)
    (he : e = GEvent.keySpace ∨ e = GEvent.fingerDown) :
    handleEvent s e = (s, []) := by
  rcases he with rfl | rfl <;> rcases hm with hm | hm <;> simp [handleEvent, hm]

/-- Whole event loop version of handleEvent_jump_inactive. -/
theorem processEvents_jump_inactive (evs : List GEvent) : ∀ s : GState,
    (s.game_state = Mode.GAME_OVER ∨ s.game_state = Mode.GAME_RESTART) →
    (∀ e ∈ evs, e = GEvent.keySpace ∨ e = GEvent.fingerDown) →
      processEvents s evs = (s, []) := by
  induction evs with
  | nil => intro s _ _; rfl
  | cons e rest ih =>
    intro s hm he
    have h1 : handleEvent s e = (s, []) :=
      handleEvent_jump_inactive s e hm (he e (List.mem_cons_self e rest))
    simp only [processEvents, h1]
    rw [ih s hm fun f hf => he f (List.mem_cons_of_mem e hf)]
    rfl

/-- The only sound event handling can emit is the wing sound. -/
theorem handleEvent_sounds (s : GState) (e : GEvent) :
    (handleEvent s e).2 = [] ∨ (handleEvent s e).2 = [Sound.wing] := by
  cases e <;> cases hs : s.game_state <;> simp [handleEvent, hs]

/-- The event loop never emits the hit or die sound. -/
theorem processEvents_no_hit_die (evs : List GEvent) : ∀ s : GState,
    Sound.hit ∉ (processEvents s evs).2 ∧ Sound.die ∉ (processEvents s evs).2 := by
  induction evs with
  | nil => intro s; simp [processEvents]
  | cons e rest ih =>
    intro s
    have h2 := ih (handleEvent s e).1
    simp only [processEvents, List.mem_append]
    rcases handleEvent_sounds s e with h1 | h1 <;> rw [h1] <;> simp <;>
      exact ⟨h2.1, h2.2⟩

/-! ### Helper lemmas about the pipe update loop -/

/-- The processed list of the pipe loop moves every pipe left by
pipe_speed. -/
theorem pipeLoopAux_moved (p : Params) : ∀ (ps : List (ℤ × ℤ)) (i : ℕ),
    (pipeLoopAux p i ps).1 = ps.map movePipe := by
  intro ps
  induction ps with
  | nil => intro i; rfl
  | cons q rest ih => intro i; simp [pipeLoopAux, ih]

/-- The number of score increments of one pipe loop pass is the number of
moved pipes whose center satisfies the crossing test. -/
theorem pipeLoopAux_score (p : Params) : ∀ (ps : List (ℤ × ℤ)) (i : ℕ),
    (pipeLoopAux p i ps).2.1 =
      (ps.map movePipe).countP (fun q => crossesCenter p q.1) := by
  intro ps
  induction ps with
  | nil => intro i; rfl
  | cons q rest ih =>
    intro i
    simp [pipeLoopAux, ih, List.countP_cons]
    rcases h : crossesCenter p (movePipe q).1 with _ | _ <;> simp [h] <;> omega

/-- The removal indices collected starting at offset i are the removal
indices collected from offset 0, shifted by i. -/
theorem pipeLoopAux_rem_shift (p : Params) : ∀ (ps : List (ℤ × ℤ)) (i : ℕ),
    (pipeLoopAux p i ps).2.2 = ((pipeLoopAux p 0 ps).2.2).map (· + i) := by
  intro ps
  induction ps with
  | nil => intro i; rfl
  | cons q rest ih =>
    intro i
    simp only [pipeLoopAux]
    rw [ih (i + 1), ih 1]
    rcases h : offscreen p (movePipe q) with _ | _ <;>
      simp [h, List.map_map, Function.comp, Nat.add_comm] <;>
      exact fun a _ => by omega

/-- Erasing a list of successor indices from a cons cell erases the
shifted indices from the tail. -/
theorem foldl_eraseIdx_succ (a : ℤ × ℤ) : ∀ (idxs : List ℕ) (l : List (ℤ × ℤ)),
    (idxs.map (· + 1)).foldl (fun acc i => acc.eraseIdx i) (a :: l) =
      a :: idxs.foldl (fun acc i => acc.eraseIdx i) l := by
  intro idxs
  induction idxs with
  | nil => intro l; rfl
  | cons j rest ih =>
    intro l
    simp only [List.map_cons, List.foldl_cons, List.eraseIdx_cons_succ]
    exact ih _

/-- Popping the recorded removal indices from highest to lowest removes
exactly the offscreen pipes and no others: the removal pass is the filter
keeping the pipes that are not offscreen. -/
theorem applyRemovals_filter (p : Params) : ∀ ps : List (ℤ × ℤ),
    applyRemovals (pipeLoopAux p 0 ps).1 (pipeLoopAux p 0 ps).2.2 =
      (ps.map movePipe).filter (fun q => ! offscreen p q) := by
  intro ps
  induction ps with
  | nil => rfl
  | cons q rest ih =>
    have hm : (pipeLoopAux p 0 (q :: rest)).1 =
        movePipe q :: (rest.map movePipe) := by
      simp [pipeLoopAux, pipeLoopAux_moved]
    have hr : (pipeLoopAux p 0 (q :: rest)).2.2 =
        (if offscreen p (movePipe q) then [0] else []) ++
          ((pipeLoopAux p 0 rest).2.2).map (· + 1) := by
      simp only [pipeLoopAux]
      rw [pipeLoopAux_rem_shift p rest 1]
    have htail :
        applyRemovals (rest.map movePipe) (pipeLoopAux p 0 rest).2.2 =
          (rest.map movePipe).filter (fun q => ! offscreen p q) := by
      have := ih
      rwa [pipeLoopAux_moved p rest 0] at this
    unfold applyRemovals at htail ⊢
    rw [hm, hr, List.reverse_append, List.foldl_append, ← List.map_reverse,
      foldl_eraseIdx_succ, htail]
    rcases h : offscreen p (movePipe q) with _ | _
    · simp [h, List.filter_cons]
    · simp [h, List.filter_cons]

/-! ### Arithmetic reformulations of the geometric tests -/

/-- The crossing test, cleared of rational division: the moved center is in
the half open window of width pipe_speed ending at the screen midpoint. -/
theorem crossesCenter_iff (p : Params) (x : ℤ) :
    crossesCenter p x = true ↔
      2 * x + p.pipe_width ≤ p.screen_width ∧
        p.screen_width - 2 * pipe_speed < 2 * x + p.pipe_width := by
  simp only [crossesCenter, pipe_center, Bool.and_eq_true, decide_eq_true_eq]
  constructor
  · rintro ⟨h1, h2⟩
    constructor
    · have h1q : ((2 * x + p.pipe_width : ℤ) : ℚ) ≤ ((p.screen_width : ℤ) : ℚ) := by
        push_cast
        linarith
      exact_mod_cast h1q
    · have h2q : ((p.screen_width - 2 * pipe_speed : ℤ) : ℚ) <
          ((2 * x + p.pipe_width : ℤ) : ℚ) := by
        push_cast
        linarith
      exact_mod_cast h2q
  · rintro ⟨h1, h2⟩
    have h1q : ((2 * x + p.pipe_width : ℤ) : ℚ) ≤ ((p.screen_width : ℤ) : ℚ) := by
      exact_mod_cast h1
    have h2q : ((p.screen_width - 2 * pipe_speed : ℤ) : ℚ) <
        ((2 * x + p.pipe_width : ℤ) : ℚ) := by
      exact_mod_cast h2
    push_cast at h1q h2q
    constructor <;> linarith

/-- The offscreen test as an integer inequality. -/
theorem offscreen_iff (p : Params) (q : ℤ × ℤ) :
    offscreen p q = true ↔ q.1 < -p.pipe_width := by
  simp [offscreen]

/-- For a nonnegative argument, Python truncation is the floor. -/
theorem pyInt_of_nonneg {q : ℚ} (h : 0 ≤ q) : pyInt q = ⌊q⌋ := if_pos h

/-! ### Field tracking lemmas for the stages of the two physics branches -/

@[simp] theorem birdPhysicsPlaying_velocity (s : GState) :
    (birdPhysicsPlaying s).bird_velocity = s.bird_velocity + gravitational_force := rfl

@[simp] theorem birdPhysicsPlaying_y (s : GState) :
    (birdPhysicsPlaying s).bird_y =
      s.bird_y + pyInt (s.bird_velocity + gravitational_force) := rfl

@[simp] theorem birdPhysicsPlaying_untouched (s : GState) :
    (birdPhysicsPlaying s).game_state = s.game_state ∧
      (birdPhysicsPlaying s).pipes = s.pipes ∧
      (birdPhysicsPlaying s).score = s.score ∧
      (birdPhysicsPlaying s).die_sound_played = s.die_sound_played ∧
      (birdPhysicsPlaying s).last_pipe = s.last_pipe ∧
      (birdPhysicsPlaying s).gameover_time = s.gameover_time ∧
      (birdPhysicsPlaying s).is_night_theme = s.is_night_theme :=
  ⟨rfl, rfl, rfl, rfl, rfl, rfl, rfl⟩

theorem spawnPipes_spawn (p : Params) (inp : TickInput) (s : GState)
    (h : pipe_frequency < inp.now - s.last_pipe) :
    spawnPipes p inp s =
      { s with pipes := s.pipes ++ [generate_pipe p inp.gapY], last_pipe := inp.now } :=
  if_pos h

theorem spawnPipes_skip (p : Params) (inp : TickInput) (s : GState)
    (h : ¬ pipe_frequency < inp.now - s.last_pipe) :
    spawnPipes p inp s = s :=
  if_neg h

@[simp] theorem spawnPipes_untouched (p : Params) (inp : TickInput) (s : GState) :
    (spawnPipes p inp s).game_state = s.game_state ∧
      (spawnPipes p inp s).bird_y = s.bird_y ∧
      (spawnPipes p inp s).bird_velocity = s.bird_velocity ∧
      (spawnPipes p inp s).bird_angle = s.bird_angle ∧
      (spawnPipes p inp s).score = s.score ∧
      (spawnPipes p inp s).die_sound_played = s.die_sound_played ∧
      (spawnPipes p inp s).gameover_time = s.gameover_time ∧
      (spawnPipes p inp s).is_night_theme = s.is_night_theme := by
  unfold spawnPipes
  split <;> exact ⟨rfl, rfl, rfl, rfl, rfl, rfl, rfl, rfl⟩

@[simp] theorem advancePipes_untouched (p : Params) (s : GState) :
    (advancePipes p s).1.game_state = s.game_state ∧
      (advancePipes p s).1.bird_y = s.bird_y ∧
      (advancePipes p s).1.bird_velocity = s.bird_velocity ∧
      (advancePipes p s).1.bird_angle = s.bird_angle ∧
      (advancePipes p s).1.die_sound_played = s.die_sound_played ∧
      (advancePipes p s).1.last_pipe = s.last_pipe ∧
      (advancePipes p s).1.gameover_time = s.gameover_time ∧
      (advancePipes p s).1.is_night_theme = s.is_night_theme :=
  ⟨rfl, rfl, rfl, rfl, rfl, rfl, rfl, rfl⟩

/-- After the pipe pass, the pipe list is the moved list with the offscreen
pipes filtered away. -/
theorem advancePipes_pipes (p : Params) (s : GState) :
    (advancePipes p s).1.pipes =
      (s.pipes.map movePipe).filter (fun q => ! offscreen p q) := by
  show applyRemovals (pipeLoopAux p 0 s.pipes).1 (pipeLoopAux p 0 s.pipes).2.2 = _
  exact applyRemovals_filter p s.pipes

/-- After the pipe pass, the score has grown by the number of moved pipes
satisfying the crossing test. -/
theorem advancePipes_score (p : Params) (s : GState) :
    (advancePipes p s).1.score =
      s.score + (s.pipes.map movePipe).countP (fun q => crossesCenter p q.1) := by
  show s.score + (pipeLoopAux p 0 s.pipes).2.1 = _
  rw [pipeLoopAux_score p s.pipes 0]

theorem advancePipes_sounds (p : Params) (s : GState) :
    (advancePipes p s).2 = List.replicate (pipeLoopAux p 0 s.pipes).2.1 Sound.point := rfl

theorem pipeCollisionCheck_pass (inp : TickInput) (s : GState)
    (h : inp.collision = false) :
    pipeCollisionCheck inp s = (s, []) := by
  unfold pipeCollisionCheck
  rw [if_neg]
  simp [h]

theorem pipeCollisionCheck_fire (inp : TickInput) (s : GState)
    (hc : inp.collision = true) (hs : s.game_state ≠ Mode.GAME_OVER) :
    pipeCollisionCheck inp s =
      ({ s with game_state := Mode.GAME_OVER, die_sound_played := true },
        [Sound.hit, Sound.die]) :=
  if_pos ⟨hc, hs⟩

theorem groundCheck_miss (p : Params) (s : GState)
    (h : s.bird_y + p.bird_height ≤ p.game_area_height - p.land_height) :
    groundCheck p s = (s, []) := by
  unfold groundCheck
  exact if_neg (not_lt.mpr h)

theorem groundCheck_hit_playing (p : Params) (s : GState)
    (h : p.game_area_height - p.land_height < s.bird_y + p.bird_height)
    (hs : s.game_state ≠ Mode.GAME_OVER) :
    groundCheck p s =
      ({ s with
          game_state := Mode.GAME_OVER
          die_sound_played := true
          bird_y := p.game_area_height - p.land_height - p.bird_height
          bird_velocity := 0 },
        [Sound.hit, Sound.die]) := by
  unfold groundCheck
  rw [if_pos h, if_pos hs]

theorem groundCheck_hit_over (p : Params) (s : GState)
    (h : p.game_area_height - p.land_height < s.bird_y + p.bird_height)
    (hs : s.game_state = Mode.GAME_OVER) :
    groundCheck p s =
      ({ s with
          bird_y := p.game_area_height - p.land_height - p.bird_height
          bird_velocity := 0 }, []) := by
  unfold groundCheck
  rw [if_pos h, if_neg (by simp [hs])]

theorem ceilingClamp_skip (s : GState) (h : 0 ≤ s.bird_y) :
    ceilingClamp s = s :=
  if_neg (not_lt.mpr h)

theorem ceilingClamp_clamp (s : GState) (h : s.bird_y < 0) :
    ceilingClamp s = { s with bird_y := 0, bird_velocity := 0 } :=
  if_pos h

/-- The bird altitude after the ceiling clamp is never negative. -/
theorem ceilingClamp_nonneg (s : GState) : 0 ≤ (ceilingClamp s).bird_y := by
  unfold ceilingClamp
  split
  · exact le_refl 0
  · omega

@[simp] theorem birdPhysicsGameOver_velocity (s : GState) :
    (birdPhysicsGameOver s).bird_velocity =
      s.bird_velocity + gravitational_force * (3 / 2) := rfl

@[simp] theorem birdPhysicsGameOver_y (s : GState) :
    (birdPhysicsGameOver s).bird_y =
      s.bird_y + pyInt (s.bird_velocity + gravitational_force * (3 / 2)) := rfl

@[simp] theorem birdPhysicsGameOver_untouched (s : GState) :
    (birdPhysicsGameOver s).game_state = s.game_state ∧
      (birdPhysicsGameOver s).pipes = s.pipes ∧
      (birdPhysicsGameOver s).score = s.score ∧
      (birdPhysicsGameOver s).die_sound_played = s.die_sound_played ∧
      (birdPhysicsGameOver s).last_pipe = s.last_pipe ∧
      (birdPhysicsGameOver s).gameover_time = s.gameover_time ∧
      (birdPhysicsGameOver s).is_night_theme = s.is_night_theme :=
  ⟨rfl, rfl, rfl, rfl, rfl, rfl, rfl⟩

theorem gameOverGroundClamp_miss (p : Params) (s : GState)
    (h : s.bird_y + p.bird_height ≤ p.game_area_height - p.land_height) :
    gameOverGroundClamp p s = s := by
  unfold gameOverGroundClamp
  exact if_neg (not_lt.mpr h)

@[simp] theorem gameOverGroundClamp_untouched (p : Params) (s : GState) :
    (gameOverGroundClamp p s).game_state = s.game_state ∧
      (gameOverGroundClamp p s).pipes = s.pipes ∧
      (gameOverGroundClamp p s).score = s.score ∧
      (gameOverGroundClamp p s).die_sound_played = s.die_sound_played ∧
      (gameOverGroundClamp p s).last_pipe = s.last_pipe ∧
      (gameOverGroundClamp p s).gameover_time = s.gameover_time ∧
      (gameOverGroundClamp p s).is_night_theme = s.is_night_theme := by
  unfold gameOverGroundClamp
  split <;> exact ⟨rfl, rfl, rfl, rfl, rfl, rfl, rfl⟩

/-- The game over timer moves to GAME_RESTART exactly when it was already
armed on an earlier iteration and strictly more than 2000 milliseconds
have passed since it was armed. -/
theorem gameOverTimer_iff (inp : TickInput) (s : GState)
    (hm : s.game_state = Mode.GAME_OVER) :
    (gameOverTimer inp s).game_state = Mode.GAME_RESTART ↔
      (s.gameover_time ≠ 0 ∧ 2000 < inp.now - s.gameover_time) := by
  unfold gameOverTimer
  by_cases h0 : s.gameover_time = 0
  · simp [h0, hm]
  · by_cases h2 : 2000 < inp.now - s.gameover_time
    · simp [h0, h2]
    · simp [h0, h2, hm]

@[simp] theorem gameOverTimer_untouched (inp : TickInput) (s : GState) :
    (gameOverTimer inp s).bird_y = s.bird_y ∧
      (gameOverTimer inp s).bird_velocity = s.bird_velocity ∧
      (gameOverTimer inp s).bird_angle = s.bird_angle ∧
      (gameOverTimer inp s).pipes = s.pipes ∧
      (gameOverTimer inp s).score = s.score ∧
      (gameOverTimer inp s).die_sound_played = s.die_sound_played ∧
      (gameOverTimer inp s).last_pipe = s.last_pipe ∧
      (gameOverTimer inp s).is_night_theme = s.is_night_theme := by
  unfold gameOverTimer
  split
  · exact ⟨rfl, rfl, rfl, rfl, rfl, rfl, rfl, rfl⟩
  · split <;> exact ⟨rfl, rfl, rfl, rfl, rfl, rfl, rfl, rfl⟩

/-- The game over branch never changes the game state to anything other
than GAME_OVER or GAME_RESTART, and it emits no sound. -/
theorem gameOverStep_sounds (p : Params) (inp : TickInput) (s : GState) :
    (gameOverStep p inp s).2 = [] := rfl

theorem restartStep_sounds (p : Params) (s : GState) :
    (restartStep p s).2 = [] := rfl

@[simp] theorem restartStep_fields (p : Params) (s : GState) :
    (restartStep p s).1.score = 0 ∧
      (restartStep p s).1.pipes = [] ∧
      (restartStep p s).1.bird_y = p.bird_y_orig ∧
      (restartStep p s).1.bird_velocity = 0 ∧
      (restartStep p s).1.bird_angle = 0 ∧
      (restartStep p s).1.is_night_theme = !s.is_night_theme ∧
      (restartStep p s).1.game_state = Mode.GAME_START ∧
      (restartStep p s).1.gameover_time = 0 ∧
      (restartStep p s).1.die_sound_played = s.die_sound_played ∧
      (restartStep p s).1.last_pipe = s.last_pipe :=
  ⟨rfl, rfl, rfl, rfl, rfl, rfl, rfl, rfl, rfl, rfl⟩

@[simp] theorem pipeCollisionCheck_untouched (inp : TickInput) (s : GState) :
    (pipeCollisionCheck inp s).1.bird_y = s.bird_y ∧
      (pipeCollisionCheck inp s).1.bird_velocity = s.bird_velocity ∧
      (pipeCollisionCheck inp s).1.bird_angle = s.bird_angle ∧
      (pipeCollisionCheck inp s).1.pipes = s.pipes ∧
      (pipeCollisionCheck inp s).1.score = s.score ∧
      (pipeCollisionCheck inp s).1.last_pipe = s.last_pipe ∧
      (pipeCollisionCheck inp s).1.gameover_time = s.gameover_time ∧
      (pipeCollisionCheck inp s).1.is_night_theme = s.is_night_theme := by
  unfold pipeCollisionCheck
  split <;> exact ⟨rfl, rfl, rfl, rfl, rfl, rfl, rfl, rfl⟩

@[simp] theorem groundCheck_untouched (p : Params) (s : GState) :
    (groundCheck p s).1.pipes = s.pipes ∧
      (groundCheck p s).1.score = s.score ∧
      (groundCheck p s).1.bird_angle = s.bird_angle ∧
      (groundCheck p s).1.last_pipe = s.last_pipe ∧
      (groundCheck p s).1.gameover_time = s.gameover_time ∧
      (groundCheck p s).1.is_night_theme = s.is_night_theme := by
  unfold groundCheck
  split
  · split <;> exact ⟨rfl, rfl, rfl, rfl, rfl, rfl⟩
  · exact ⟨rfl, rfl, rfl, rfl, rfl, rfl⟩

@[simp] theorem ceilingClamp_untouched (s : GState) :
    (ceilingClamp s).game_state = s.game_state ∧
      (ceilingClamp s).pipes = s.pipes ∧
      (ceilingClamp s).score = s.score ∧
      (ceilingClamp s).bird_angle = s.bird_angle ∧
      (ceilingClamp s).die_sound_played = s.die_sound_played ∧
      (ceilingClamp s).last_pipe = s.last_pipe ∧
      (ceilingClamp s).gameover_time = s.gameover_time ∧
      (ceilingClamp s).is_night_theme = s.is_night_theme := by
  unfold ceilingClamp
  split <;> exact ⟨rfl, rfl, rfl, rfl, rfl, rfl, rfl, rfl⟩

/-- In GAME_OVER no land collision sound is emitted (the inner guard on
the game state blocks it). -/
theorem groundCheck_sounds_over (p : Params) (s : GState)
    (hs : s.game_state = Mode.GAME_OVER) : (groundCheck p s).2 = [] := by
  unfold groundCheck
  by_cases h : p.game_area_height - p.land_height < s.bird_y + p.bird_height
  · rw [if_pos h, if_neg (by simp [hs])]
  · rw [if_neg h]

/-- The land collision check emits either nothing or the hit and die pair. -/
theorem groundCheck_sounds_cases (p : Params) (s : GState) :
    (groundCheck p s).2 = [] ∨ (groundCheck p s).2 = [Sound.hit, Sound.die] := by
  unfold groundCheck
  by_cases h : p.game_area_height - p.land_height < s.bird_y + p.bird_height
  · by_cases h2 : s.game_state ≠ Mode.GAME_OVER
    · right
      rw [if_pos h, if_pos h2]
    · left
      rw [if_pos h, if_neg h2]
  · left
    rw [if_neg h]

/-- The point sounds of the pipe pass contain no die sound. -/
theorem count_die_replicate_point (n : ℕ) :
    (List.replicate n Sound.point).count Sound.die = 0 := by
  refine List.count_eq_zero.mpr ?_
  intro hmem
  cases List.eq_of_mem_replicate hmem

/-! ### Claim theorems -/

/-- Claim C1, counterexample: the machine is in GAME_OVER with the timer
armed 500 milliseconds ago, a space keydown arrives, and the iteration
leaves the mode in GAME_OVER instead of the GAME_RESTART the claim
requires. -/
theorem C1_counterexample :
    (tick pDemo ⟨[GEvent.keySpace], 1500, false, 0⟩
        demoOverArmed).1.game_state ≠ Mode.GAME_RESTART := by
  norm_num [tick, processEvents, handleEvent, gameOverStep, birdPhysicsGameOver,
    gameOverGroundClamp, gameOverTimer, pyInt, gravitational_force, demoOverArmed,
    demoPlaying, pDemo]
  decide

/-- Claim C1, amended: in GAME_OVER a jump input (space keydown or touch)
is ignored: the event phase returns the state unchanged with no sound, and
as long as the game over timer has not expired the iteration leaves the
mode in GAME_OVER.  The transition to GAME_RESTART is made by the timer,
not by input. -/
theorem C1_gameover_jump_ignored (p : Params) (inp : TickInput) (s : GState)
    (hm : s.game_state = Mode.GAME_OVER)
    (he : ∀ e ∈ inp.events, e = GEvent.keySpace ∨ e = GEvent.fingerDown)
    (ht : ¬ (s.gameover_time ≠ 0 ∧ 2000 < inp.now - s.gameover_time)) :
    processEvents s inp.events = (s, []) ∧
      (tick p inp s).1.game_state = Mode.GAME_OVER := by
  have hpe := processEvents_jump_inactive inp.events s (Or.inl hm) he
  refine ⟨hpe, ?_⟩
  simp only [tick, hpe, hm]
  unfold gameOverStep
  have hgs : (gameOverGroundClamp p (birdPhysicsGameOver s)).game_state =
      Mode.GAME_OVER := by
    rw [(gameOverGroundClamp_untouched p _).1, (birdPhysicsGameOver_untouched s).1, hm]
  have hgt : (gameOverGroundClamp p (birdPhysicsGameOver s)).gameover_time =
      s.gameover_time := by
    rw [(gameOverGroundClamp_untouched p _).2.2.2.2.2.1,
      (birdPhysicsGameOver_untouched s).2.2.2.2.2.1]
  unfold gameOverTimer
  rw [hgt]
  by_cases h0 : s.gameover_time = 0
  · rw [if_pos h0]
    exact hgs
  · rw [if_neg h0, if_neg (by push_neg at ht; exact not_lt.mpr (ht h0))]
    exact hgs

/-- Claim C1, witness for the amended theorem at a concrete input. -/
theorem C1_witness :
    processEvents demoOverArmed [GEvent.keySpace] = (demoOverArmed, []) ∧
      (tick pDemo ⟨[GEvent.keySpace], 1500, false, 0⟩
          demoOverArmed).1.game_state = Mode.GAME_OVER := by
  refine C1_gameover_jump_ignored pDemo ⟨[GEvent.keySpace], 1500, false, 0⟩
    demoOverArmed rfl ?_ ?_
  · intro e he
    simp only [List.mem_singleton] at he
    exact Or.inl he
  · have h1 : demoOverArmed.gameover_time = 1000 := rfl
    have h2 : (⟨[GEvent.keySpace], 1500, false, 0⟩ : TickInput).now = 1500 := rfl
    intro h
    omega

/-- Claim C5: a loop iteration that starts (after event handling) in
GAME_RESTART resets the score to 0, empties the pipe list, puts the bird
back at the start position with velocity 0 and angle 0, toggles the theme
flag, and is in GAME_START at the end of the same iteration, whatever the
prior state was. -/
theorem C5_restart_resets (p : Params) (inp : TickInput) (s : GState)
    (hm : s.game_state = Mode.GAME_RESTART) :
    (tick p inp s).1.score = 0 ∧
      (tick p inp s).1.pipes = [] ∧
      (tick p inp s).1.bird_y = p.bird_y_orig ∧
      (tick p inp s).1.bird_velocity = 0 ∧
      (tick p inp s).1.bird_angle = 0 ∧
      (tick p inp s).1.is_night_theme = !s.is_night_theme ∧
      (tick p inp s).1.game_state = Mode.GAME_START := by
  have hpres := processEvents_preserved inp.events s
  have hgs : (processEvents s inp.events).1.game_state = Mode.GAME_RESTART := by
    rw [processEvents_game_state inp.events s (by rw [hm]; decide), hm]
  simp only [tick, hgs]
  simp [hpres.2.2.2.2.2.2]

/-- Claim C5, witness at a concrete nontrivial prior state. -/
theorem C5_witness :
    (tick pDemo ⟨[], 9000, false, 0⟩ demoRestart).1.score = 0 ∧
      (tick pDemo ⟨[], 9000, false, 0⟩ demoRestart).1.pipes = [] ∧
      (tick pDemo ⟨[], 9000, false, 0⟩ demoRestart).1.bird_y = pDemo.bird_y_orig ∧
      (tick pDemo ⟨[], 9000, false, 0⟩ demoRestart).1.bird_velocity = 0 ∧
      (tick pDemo ⟨[], 9000, false, 0⟩ demoRestart).1.bird_angle = 0 ∧
      (tick pDemo ⟨[], 9000, false, 0⟩ demoRestart).1.is_night_theme =
        !demoRestart.is_night_theme ∧
      (tick pDemo ⟨[], 9000, false, 0⟩ demoRestart).1.game_state =
        Mode.GAME_START :=
  C5_restart_resets pDemo ⟨[], 9000, false, 0⟩ demoRestart rfl

/-- Claim C9, counterexample to the stated bound: the timer was armed at
millisecond 1000 and the iteration runs at millisecond 3000, so at least
2000 milliseconds have elapsed, yet the mode stays GAME_OVER because the
code requires strictly more than 2000 milliseconds. -/
theorem C9_counterexample :
    (2000 : ℤ) ≤ 3000 - demoOverArmed.gameover_time ∧
      (tick pDemo ⟨[], 3000, false, 0⟩ demoOverArmed).1.game_state =
        Mode.GAME_OVER := by
  constructor
  · norm_num [demoOverArmed, demoPlaying]
  · norm_num [tick, processEvents, gameOverStep, birdPhysicsGameOver,
      gameOverGroundClamp, gameOverTimer, pyInt, gravitational_force,
      demoOverArmed, demoPlaying, pDemo]

/-- Claim C9, amended: jump inputs (space keydown or touch) are ignored in
both GAME_OVER and GAME_RESTART (the event phase is the identity in either
mode), and a GAME_OVER iteration moves the mode to GAME_RESTART exactly
when the game over timer was armed on an earlier iteration and strictly
more than 2000 milliseconds have passed since it was armed. -/
theorem C9_timed_restart :
    (∀ (s : GState) (evs : List GEvent),
      (s.game_state = Mode.GAME_OVER ∨ s.game_state = Mode.GAME_RESTART) →
      (∀ e ∈ evs, e = GEvent.keySpace ∨ e = GEvent.fingerDown) →
      processEvents s evs = (s, [])) ∧
      (∀ (p : Params) (inp : TickInput) (s : GState),
        s.game_state = Mode.GAME_OVER →
        (∀ e ∈ inp.events, e = GEvent.keySpace ∨ e = GEvent.fingerDown) →
        ((tick p inp s).1.game_state = Mode.GAME_RESTART ↔
          s.gameover_time ≠ 0 ∧ 2000 < inp.now - s.gameover_time)) := by
  constructor
  · intro s evs hm he
    exact processEvents_jump_inactive evs s hm he
  · intro p inp s hm he
    have hpe := processEvents_jump_inactive inp.events s (Or.inl hm) he
    simp only [tick, hpe, hm]
    unfold gameOverStep
    have hgs : (gameOverGroundClamp p (birdPhysicsGameOver s)).game_state =
        Mode.GAME_OVER := by
      rw [(gameOverGroundClamp_untouched p _).1,
        (birdPhysicsGameOver_untouched s).1, hm]
    have hgt : (gameOverGroundClamp p (birdPhysicsGameOver s)).gameover_time =
        s.gameover_time := by
      rw [(gameOverGroundClamp_untouched p _).2.2.2.2.2.1,
        (birdPhysicsGameOver_untouched s).2.2.2.2.2.1]
    rw [gameOverTimer_iff inp _ hgs, hgt]

/-- Claim C9, witness: a space keydown polled while in GAME_RESTART leaves
the state untouched, a touch polled while in GAME_OVER likewise, and with
the timer armed 2500 milliseconds ago the GAME_OVER iteration does move to
GAME_RESTART. -/
theorem C9_witness :
    processEvents demoRestart [GEvent.keySpace] = (demoRestart, []) ∧
      processEvents demoOverArmed [GEvent.fingerDown] = (demoOverArmed, []) ∧
      (tick pDemo ⟨[GEvent.fingerDown], 3500, false, 0⟩
          demoOverArmed).1.game_state = Mode.GAME_RESTART := by
  refine ⟨?_, ?_, ?_⟩
  · exact C9_timed_restart.1 demoRestart [GEvent.keySpace] (Or.inr rfl)
      (by intro e he; simp only [List.mem_singleton] at he; exact Or.inl he)
  · exact C9_timed_restart.1 demoOverArmed [GEvent.fingerDown] (Or.inl rfl)
      (by intro e he; simp only [List.mem_singleton] at he; exact Or.inr he)
  · have h := C9_timed_restart.2 pDemo ⟨[GEvent.fingerDown], 3500, false, 0⟩
      demoOverArmed rfl
      (by intro e he; simp only [List.mem_singleton] at he; exact Or.inr he)
    have h1 : demoOverArmed.gameover_time = 1000 := rfl
    have h2 : (⟨[GEvent.fingerDown], 3500, false, 0⟩ : TickInput).now = 3500 := rfl
    refine h.mpr ⟨?_, ?_⟩
    · intro hcon
      omega
    · omega

/-- Claim C2: in a GAME_PLAYING iteration (with no polled input, no pipe
collision, no land contact and no ceiling breach) the velocity grows by
exactly gravitational_force and the altitude by the integer truncation of
the new velocity; in a GAME_OVER iteration (no land contact) the velocity
grows by gravitational_force times 1.5 and the altitude analogously; and
the concrete scenario starting from y = 0, velocity = 0 in GAME_PLAYING
with gravity 5 reaches velocity 5 and y = 5 after one iteration. -/
theorem C2_gravity_integration :
    (∀ (p : Params) (inp : TickInput) (s : GState),
      s.game_state = Mode.GAME_PLAYING → inp.events = [] → inp.collision = false →
      s.bird_y + pyInt (s.bird_velocity + gravitational_force) + p.bird_height ≤
        p.game_area_height - p.land_height →
      0 ≤ s.bird_y + pyInt (s.bird_velocity + gravitational_force) →
      (tick p inp s).1.bird_velocity = s.bird_velocity + gravitational_force ∧
        (tick p inp s).1.bird_y =
          s.bird_y + pyInt (s.bird_velocity + gravitational_force)) ∧
    (∀ (p : Params) (inp : TickInput) (s : GState),
      s.game_state = Mode.GAME_OVER → inp.events = [] →
      s.bird_y + pyInt (s.bird_velocity + gravitational_force * (3 / 2)) +
          p.bird_height ≤ p.game_area_height - p.land_height →
      (tick p inp s).1.bird_velocity =
          s.bird_velocity + gravitational_force * (3 / 2) ∧
        (tick p inp s).1.bird_y =
          s.bird_y + pyInt (s.bird_velocity + gravitational_force * (3 / 2))) ∧
    ((tick pDemo ⟨[], 0, false, 0⟩ demoPlaying).1.bird_velocity = 5 ∧
      (tick pDemo ⟨[], 0, false, 0⟩ demoPlaying).1.bird_y = 5) := by
  refine ⟨?_, ?_, ?_⟩
  · intro p inp s hm hev hcol hg hc
    have hpe : processEvents s inp.events = (s, []) := by rw [hev]; rfl
    simp only [tick, hpe, hm]
    simp only [playingStep]
    have u2 := spawnPipes_untouched p inp (birdPhysicsPlaying s)
    have u3 := advancePipes_untouched p (spawnPipes p inp (birdPhysicsPlaying s))
    have h3y : (advancePipes p (spawnPipes p inp (birdPhysicsPlaying s))).1.bird_y =
        s.bird_y + pyInt (s.bird_velocity + gravitational_force) :=
      (u3.2.1).trans ((u2.2.1).trans (birdPhysicsPlaying_y s))
    have h3v :
        (advancePipes p (spawnPipes p inp (birdPhysicsPlaying s))).1.bird_velocity =
          s.bird_velocity + gravitational_force :=
      (u3.2.2.1).trans ((u2.2.2.1).trans (birdPhysicsPlaying_velocity s))
    have h4 := pipeCollisionCheck_pass inp
      (advancePipes p (spawnPipes p inp (birdPhysicsPlaying s))).1 hcol
    have h5 := groundCheck_miss p
      (advancePipes p (spawnPipes p inp (birdPhysicsPlaying s))).1
      (by rw [h3y]; exact hg)
    have h6 := ceilingClamp_skip
      (advancePipes p (spawnPipes p inp (birdPhysicsPlaying s))).1
      (by rw [h3y]; exact hc)
    simp only [h4, h5, h6]
    exact ⟨h3v, h3y⟩
  · intro p inp s hm hev hg
    have hpe : processEvents s inp.events = (s, []) := by rw [hev]; rfl
    simp only [tick, hpe, hm]
    unfold gameOverStep
    have hclamp : gameOverGroundClamp p (birdPhysicsGameOver s) =
        birdPhysicsGameOver s :=
      gameOverGroundClamp_miss p _ (by rw [birdPhysicsGameOver_y]; exact hg)
    rw [hclamp]
    have ut := gameOverTimer_untouched inp (birdPhysicsGameOver s)
    exact ⟨ut.2.1.trans (birdPhysicsGameOver_velocity s),
      ut.1.trans (birdPhysicsGameOver_y s)⟩
  · norm_num [tick, processEvents, playingStep, birdPhysicsPlaying, spawnPipes,
      advancePipes, pipeLoopAux, applyRemovals, pipeCollisionCheck, groundCheck,
      ceilingClamp, pyInt, gravitational_force, pipe_frequency, demoPlaying, pDemo]

/-- Claim C2, witness: both universally quantified parts applied at
concrete states (a playing state at rest and a game over state moving
upward at velocity -40). -/
theorem C2_witness :
    ((tick pDemo ⟨[], 0, false, 0⟩ demoPlaying).1.bird_velocity =
        demoPlaying.bird_velocity + gravitational_force ∧
      (tick pDemo ⟨[], 0, false, 0⟩ demoPlaying).1.bird_y =
        demoPlaying.bird_y +
          pyInt (demoPlaying.bird_velocity + gravitational_force)) ∧
    ((tick pDemo ⟨[], 5100, false, 0⟩ demoOverFalling).1.bird_velocity =
        demoOverFalling.bird_velocity + gravitational_force * (3 / 2) ∧
      (tick pDemo ⟨[], 5100, false, 0⟩ demoOverFalling).1.bird_y =
        demoOverFalling.bird_y +
          pyInt (demoOverFalling.bird_velocity + gravitational_force * (3 / 2))) := by
  constructor
  · exact C2_gravity_integration.1 pDemo ⟨[], 0, false, 0⟩ demoPlaying rfl rfl rfl
      (by norm_num [demoPlaying, pDemo, pyInt, gravitational_force])
      (by norm_num [demoPlaying, pDemo, pyInt, gravitational_force])
  · exact C2_gravity_integration.2.1 pDemo ⟨[], 5100, false, 0⟩ demoOverFalling rfl rfl
      (by norm_num [demoOverFalling, demoPlaying, pDemo, pyInt, gravitational_force])

/-- Claim C3, counterexample: in GAME_OVER there is no ceiling clamp.  In
the reachable situation of a bird that collided with a pipe right after a
jump (velocity -40) at altitude 0, the next iteration puts the bird at
altitude -32, which is negative, refuting the claim that y is never
negative in every mode. -/
theorem C3_counterexample :
    (tick pDemo ⟨[], 5100, false, 0⟩ demoOverFalling).1.bird_y = -32 ∧
      (tick pDemo ⟨[], 5100, false, 0⟩ demoOverFalling).1.bird_y < 0 := by
  have h : (tick pDemo ⟨[], 5100, false, 0⟩ demoOverFalling).1.bird_y = -32 := by
    norm_num [tick, processEvents, gameOverStep, birdPhysicsGameOver,
      gameOverGroundClamp, gameOverTimer, pyInt, gravitational_force,
      demoOverFalling, demoPlaying, pDemo]
  refine ⟨h, ?_⟩
  rw [h]
  norm_num

/-- Claim C3, amended: the ceiling rule is a GAME_PLAYING rule.  After any
GAME_PLAYING iteration the altitude is never negative; when the update
(with no land contact) would take the altitude below zero it is clamped to
exactly 0 with the velocity zeroed, and if additionally no pipe collision
was detected the breach does not end the game: the mode stays
GAME_PLAYING.  In GAME_OVER the clamp is absent and the altitude can go
negative, as the counterexample shows. -/
theorem C3_ceiling_clamp :
    (∀ (p : Params) (inp : TickInput) (s : GState),
      s.game_state = Mode.GAME_PLAYING → 0 ≤ (tick p inp s).1.bird_y) ∧
    (∀ (p : Params) (inp : TickInput) (s : GState),
      s.game_state = Mode.GAME_PLAYING → inp.events = [] →
      s.bird_y + pyInt (s.bird_velocity + gravitational_force) + p.bird_height ≤
        p.game_area_height - p.land_height →
      s.bird_y + pyInt (s.bird_velocity + gravitational_force) < 0 →
      (tick p inp s).1.bird_y = 0 ∧
        (tick p inp s).1.bird_velocity = 0 ∧
        (inp.collision = false → (tick p inp s).1.game_state = Mode.GAME_PLAYING)) := by
  constructor
  · intro p inp s hm
    have hgs : (processEvents s inp.events).1.game_state = Mode.GAME_PLAYING := by
      rw [processEvents_game_state inp.events s (by rw [hm]; decide), hm]
    simp only [tick, hgs]
    simp only [playingStep]
    exact ceilingClamp_nonneg _
  · intro p inp s hm hev hg hneg
    have hpe : processEvents s inp.events = (s, []) := by rw [hev]; rfl
    simp only [tick, hpe, hm]
    simp only [playingStep]
    have u2 := spawnPipes_untouched p inp (birdPhysicsPlaying s)
    have u3 := advancePipes_untouched p (spawnPipes p inp (birdPhysicsPlaying s))
    have h3y : (advancePipes p (spawnPipes p inp (birdPhysicsPlaying s))).1.bird_y =
        s.bird_y + pyInt (s.bird_velocity + gravitational_force) :=
      (u3.2.1).trans ((u2.2.1).trans (birdPhysicsPlaying_y s))
    have h3gs :
        (advancePipes p (spawnPipes p inp (birdPhysicsPlaying s))).1.game_state =
          Mode.GAME_PLAYING :=
      (u3.1).trans ((u2.1).trans (((birdPhysicsPlaying_untouched s).1).trans hm))
    have h4y := (pipeCollisionCheck_untouched inp
      (advancePipes p (spawnPipes p inp (birdPhysicsPlaying s))).1).1
    have h5 := groundCheck_miss p
      (pipeCollisionCheck inp
        (advancePipes p (spawnPipes p inp (birdPhysicsPlaying s))).1).1
      (by rw [h4y, h3y]; exact hg)
    have h6 := ceilingClamp_clamp
      (pipeCollisionCheck inp
        (advancePipes p (spawnPipes p inp (birdPhysicsPlaying s))).1).1
      (by rw [h4y, h3y]; exact hneg)
    simp only [h5, h6]
    refine ⟨trivial, trivial, fun hcol => ?_⟩
    show (pipeCollisionCheck inp
      (advancePipes p (spawnPipes p inp (birdPhysicsPlaying s))).1).1.game_state =
        Mode.GAME_PLAYING
    rw [pipeCollisionCheck_pass inp _ hcol]
    exact h3gs

/-- Claim C3, witness for the amended theorem: a ceiling breach in
GAME_PLAYING (jump at altitude 0, no collision) ends the iteration clamped
at 0 with velocity 0 and the mode still GAME_PLAYING; also the
unconditional nonnegativity applied at the same state. -/
theorem C3_witness :
    (0 : ℤ) ≤ (tick pDemo ⟨[], 0, false, 0⟩
        { demoPlaying with bird_velocity := -40 }).1.bird_y ∧
      (tick pDemo ⟨[], 0, false, 0⟩
          { demoPlaying with bird_velocity := -40 }).1.bird_y = 0 ∧
      (tick pDemo ⟨[], 0, false, 0⟩
          { demoPlaying with bird_velocity := -40 }).1.bird_velocity = 0 ∧
      (tick pDemo ⟨[], 0, false, 0⟩
          { demoPlaying with bird_velocity := -40 }).1.game_state =
        Mode.GAME_PLAYING := by
  have h1 := C3_ceiling_clamp.1 pDemo ⟨[], 0, false, 0⟩
    { demoPlaying with bird_velocity := -40 } rfl
  have h2 := C3_ceiling_clamp.2 pDemo ⟨[], 0, false, 0⟩
    { demoPlaying with bird_velocity := -40 } rfl rfl
    (by norm_num [demoPlaying, pDemo, pyInt, gravitational_force])
    (by norm_num [demoPlaying, pDemo, pyInt, gravitational_force])
  exact ⟨h1, h2.1, h2.2.1, h2.2.2 rfl⟩

/-- Claim C6, counterexample: the GAME_RESTART branch does run (the mode
ends at GAME_START) but it does not clear die_sound_played: the flag is
still set afterwards, refuting the part of the claim that says the flag is
cleared on the Restart transition (the script never clears or reads it). -/
theorem C6_counterexample :
    demoRestart.die_sound_played = true ∧
      (tick pDemo ⟨[], 9100, false, 0⟩ demoRestart).1.game_state =
        Mode.GAME_START ∧
      (tick pDemo ⟨[], 9100, false, 0⟩ demoRestart).1.die_sound_played = true := by
  refine ⟨rfl, ?_, ?_⟩ <;>
    norm_num [tick, processEvents, restartStep, demoRestart, demoPlaying, pDemo]

/-- Claim C6, amended: the hit and die pair plays at most once per
GameOver episode, but the guard is the game state test, not the boolean:
an iteration starting in GAME_OVER or GAME_RESTART emits neither hit nor
die (so a second collision signal during the episode replays nothing), any
single iteration emits the die sound at most once (a pipe hit and a land
hit on the same iteration do not double it), and the Restart transition
leaves die_sound_played unchanged (the flag is set on death but never
cleared and never read). -/
theorem C6_die_sound_guard :
    (∀ (p : Params) (inp : TickInput) (s : GState),
      s.game_state = Mode.GAME_OVER ∨ s.game_state = Mode.GAME_RESTART →
      Sound.hit ∉ (tick p inp s).2 ∧ Sound.die ∉ (tick p inp s).2) ∧
    (∀ (p : Params) (inp : TickInput) (s : GState),
      s.game_state = Mode.GAME_RESTART →
      (tick p inp s).1.die_sound_played = s.die_sound_played) ∧
    (∀ (p : Params) (inp : TickInput) (s : GState),
      (tick p inp s).2.count Sound.die ≤ 1) := by
  refine ⟨?_, ?_, ?_⟩
  · intro p inp s hm
    have hes := processEvents_no_hit_die inp.events s
    have hgs : (processEvents s inp.events).1.game_state = s.game_state :=
      processEvents_game_state inp.events s
        (by rcases hm with h | h <;> rw [h] <;> decide)
    rcases hm with h | h
    · simp only [tick, hgs, h, gameOverStep]
      simp [hes.1, hes.2]
    · simp only [tick, hgs, h, restartStep]
      simp [hes.1, hes.2]
  · intro p inp s hm
    have hpres := processEvents_preserved inp.events s
    have hgs : (processEvents s inp.events).1.game_state = Mode.GAME_RESTART := by
      rw [processEvents_game_state inp.events s (by rw [hm]; decide), hm]
    simp only [tick, hgs]
    exact ((restartStep_fields p _).2.2.2.2.2.2.2.2.1).trans hpres.2.2.2.1
  · intro p inp s
    have hes := processEvents_no_hit_die inp.events s
    have hc0 : (processEvents s inp.events).2.count Sound.die = 0 :=
      List.count_eq_zero.mpr hes.2
    have hpair : ([Sound.hit, Sound.die]).count Sound.die = 1 := by decide
    simp only [tick]
    rcases hgs : (processEvents s inp.events).1.game_state with _ | _ | _ | _
    · simp [List.count_append, hc0]
    · -- GAME_PLAYING branch
      simp only [playingStep]
      rcases hcv : inp.collision with _ | _
      · have h4 := pipeCollisionCheck_pass inp
          (advancePipes p (spawnPipes p inp
            (birdPhysicsPlaying (processEvents s inp.events).1))).1 hcv
        rcases groundCheck_sounds_cases p
            (advancePipes p (spawnPipes p inp
              (birdPhysicsPlaying (processEvents s inp.events).1))).1 with
          h5 | h5 <;>
          simp [List.count_append, hc0, count_die_replicate_point, h4, h5,
            advancePipes_sounds, hpair]
      · have hne :
            (advancePipes p (spawnPipes p inp
              (birdPhysicsPlaying (processEvents s inp.events).1))).1.game_state =
              Mode.GAME_PLAYING := by
          rw [(advancePipes_untouched p _).1, (spawnPipes_untouched p inp _).1,
            (birdPhysicsPlaying_untouched _).1, hgs]
        have h4 := pipeCollisionCheck_fire inp
          (advancePipes p (spawnPipes p inp
            (birdPhysicsPlaying (processEvents s inp.events).1))).1 hcv
          (by rw [hne]; decide)
        have h5 := groundCheck_sounds_over p
          (pipeCollisionCheck inp
            (advancePipes p (spawnPipes p inp
              (birdPhysicsPlaying (processEvents s inp.events).1))).1).1
          (by rw [h4])
        rw [h5]
        simp [List.count_append, hc0, count_die_replicate_point, h4,
          advancePipes_sounds, hpair]
    · simp [List.count_append, hc0, gameOverStep]
    · simp [List.count_append, hc0, restartStep]

/-- Claim C6, witness: a second collision signal during a GAME_OVER
iteration emits no hit or die sound, and a concrete Restart iteration
leaves the flag where it was. -/
theorem C6_witness :
    (Sound.hit ∉ (tick pDemo ⟨[], 5200, true, 0⟩ demoOverArmed).2 ∧
      Sound.die ∉ (tick pDemo ⟨[], 5200, true, 0⟩ demoOverArmed).2) ∧
      (tick pDemo ⟨[], 9100, false, 0⟩ demoRestart).1.die_sound_played =
        demoRestart.die_sound_played :=
  ⟨C6_die_sound_guard.1 pDemo ⟨[], 5200, true, 0⟩ demoOverArmed (Or.inl rfl),
    C6_die_sound_guard.2.1 pDemo ⟨[], 9100, false, 0⟩ demoRestart rfl⟩

/-- Claim C7, counterexample: with usable height 10 (not divisible by 4),
min_gap_y = int(10 * 0.25) = 2 and the admissible draw gap_y = 2 violates
the claimed lower bound 0.25 * usable_height = 2.5. -/
theorem C7_counterexample :
    min_gap_y pNarrow ≤ 2 ∧ 2 ≤ max_gap_y pNarrow ∧
      ¬ ((usable_height pNarrow : ℚ) * (1 / 4) ≤
          (((generate_pipe pNarrow 2).2 : ℤ) : ℚ)) := by
  refine ⟨?_, ?_, ?_⟩ <;>
    norm_num [min_gap_y, max_gap_y, usable_height, generate_pipe, pyInt, pNarrow]

/-- Claim C7, amended: a spawned obstacle has x = screen_width and its gap
center, drawn from the integer interval min_gap_y to max_gap_y, satisfies
0.25 * usable_height - 1 < gap_y and gap_y le 0.75 * usable_height: the
bounds are the int() truncations of the quarter marks, so the lower bound
can undershoot 0.25 * usable_height by less than one pixel. -/
theorem C7_gap_bounds (p : Params) (r : ℤ)
    (hu : 0 ≤ usable_height p)
    (hmin : min_gap_y p ≤ r) (hmax : r ≤ max_gap_y p) :
    (generate_pipe p r).1 = p.screen_width ∧
      (usable_height p : ℚ) * (1 / 4) - 1 < ((generate_pipe p r).2 : ℚ) ∧
      ((generate_pipe p r).2 : ℚ) ≤ (usable_height p : ℚ) * (3 / 4) := by
  have huq : (0 : ℚ) ≤ (usable_height p : ℚ) := by exact_mod_cast hu
  refine ⟨rfl, ?_, ?_⟩
  · have hfloor : min_gap_y p = ⌊(usable_height p : ℚ) * (1 / 4)⌋ :=
      pyInt_of_nonneg (by positivity)
    have hlt : (usable_height p : ℚ) * (1 / 4) - 1 <
        ((min_gap_y p : ℤ) : ℚ) := by
      rw [hfloor]
      exact_mod_cast Int.sub_one_lt_floor ((usable_height p : ℚ) * (1 / 4))
    have hle : ((min_gap_y p : ℤ) : ℚ) ≤ ((generate_pipe p r).2 : ℚ) := by
      exact_mod_cast hmin
    exact lt_of_lt_of_le hlt hle
  · have hfloor : max_gap_y p = ⌊(usable_height p : ℚ) * (3 / 4)⌋ :=
      pyInt_of_nonneg (by positivity)
    have hle : ((generate_pipe p r).2 : ℚ) ≤ ((max_gap_y p : ℤ) : ℚ) := by
      exact_mod_cast hmax
    refine le_trans hle ?_
    rw [hfloor]
    exact Int.floor_le ((usable_height p : ℚ) * (3 / 4))

/-- Claim C7, witness for the amended bounds at the demo geometry with
draw 200 (usable height 500, admissible interval 125 to 375). -/
theorem C7_witness :
    (generate_pipe pDemo 200).1 = pDemo.screen_width ∧
      (usable_height pDemo : ℚ) * (1 / 4) - 1 < ((generate_pipe pDemo 200).2 : ℚ) ∧
      ((generate_pipe pDemo 200).2 : ℚ) ≤ (usable_height pDemo : ℚ) * (3 / 4) :=
  C7_gap_bounds pDemo 200 (by norm_num [usable_height, pDemo])
    (by norm_num [min_gap_y, usable_height, pyInt, pDemo])
    (by norm_num [max_gap_y, usable_height, pyInt, pDemo])

/-- Claim C4: with a sensible geometry (screen plus pipe width at least
24 pixels) the crossing test fires at exactly one tick index along the
trajectory x = screen_width - pipe_speed * N, that index is reached before
the removal threshold, and the score increment of one pipe pass is the
number of moved pipes whose center satisfies the test, so several pipes
crossing on the same iteration each contribute one. -/
theorem C4_score_once (p : Params)
    (h24 : 24 ≤ p.screen_width + p.pipe_width) :
    (∃! N : ℕ, crossesCenter p (p.screen_width - pipe_speed * (N : ℤ)) = true) ∧
      (∀ N : ℕ, crossesCenter p (p.screen_width - pipe_speed * (N : ℤ)) = true →
        -p.pipe_width ≤ p.screen_width - pipe_speed * (N : ℤ)) ∧
      (∀ ps : List (ℤ × ℤ), (pipeLoopAux p 0 ps).2.1 =
        (ps.map movePipe).countP (fun q => crossesCenter p q.1)) ∧
      (∀ s : GState, (advancePipes p s).1.score =
        s.score + (s.pipes.map movePipe).countP (fun q => crossesCenter p q.1)) := by
  have hps : pipe_speed = 13 := rfl
  have key : ∀ N : ℕ,
      (crossesCenter p (p.screen_width - pipe_speed * (N : ℤ)) = true) ↔
        (p.screen_width + p.pipe_width ≤ 26 * (N : ℤ) ∧
          26 * (N : ℤ) < p.screen_width + p.pipe_width + 26) := by
    intro N
    rw [crossesCenter_iff, hps]
    omega
  refine ⟨?_, ?_, ?_, ?_⟩
  · refine ⟨((p.screen_width + p.pipe_width + 25).toNat) / 26, ?_, ?_⟩
    · simp only [key]
      omega
    · intro M hM
      simp only [key] at hM
      omega
  · intro N hN
    rw [key] at hN
    rw [hps]
    omega
  · intro ps
    exact pipeLoopAux_score p ps 0
  · intro s
    exact advancePipes_score p s

/-- Claim C4, witness: at the demo geometry the crossing test fires at
exactly one tick index, and the width hypothesis holds there. -/
theorem C4_witness :
    (24 : ℤ) ≤ pDemo.screen_width + pDemo.pipe_width ∧
      (∃! N : ℕ,
        crossesCenter pDemo (pDemo.screen_width - pipe_speed * (N : ℤ)) = true) :=
  ⟨by norm_num [pDemo], (C4_score_once pDemo (by norm_num [pDemo])).1⟩

/-- Claim C8: the pipe scroll speed equals the land scroll speed; a pipe
spawned by generate_pipe at x = screen_width sits at
screen_width - pipe_speed * N after N applications of the per iteration
move; the removal pass of one pipe iteration keeps exactly the moved pipes
that are not offscreen (popping indices from highest to lowest skips no
entry); and a moved pipe stays in the live list exactly when its x is not
below -pipe_width. -/
theorem C8_pipe_motion (p : Params) :
    pipe_speed = land_scroll_speed ∧
      (∀ (g : ℤ) (N : ℕ),
        movePipe^[N] (generate_pipe p g) =
          (p.screen_width - pipe_speed * (N : ℤ), g)) ∧
      (∀ s : GState, (advancePipes p s).1.pipes =
        (s.pipes.map movePipe).filter (fun q => ! offscreen p q)) ∧
      (∀ (s : GState) (q : ℤ × ℤ), q ∈ s.pipes →
        (movePipe q ∈ (advancePipes p s).1.pipes ↔
          ¬ (movePipe q).1 < -p.pipe_width)) := by
  refine ⟨rfl, ?_, ?_, ?_⟩
  · intro g N
    induction N with
    | zero => simp [generate_pipe]
    | succ n ih =>
      rw [Function.iterate_succ_apply', ih]
      simp only [movePipe, Prod.mk.injEq]
      refine ⟨?_, trivial⟩
      push_cast
      ring
  · intro s
    exact advancePipes_pipes p s
  · intro s q hq
    rw [advancePipes_pipes]
    constructor
    · intro hmem
      have h2 := (List.mem_filter.mp hmem).2
      simpa [offscreen] using h2
    · intro hnot
      refine List.mem_filter.mpr ⟨List.mem_map_of_mem movePipe hq, ?_⟩
      simpa [offscreen] using hnot

/-- Claim C8, witness: three moves of a freshly spawned pipe land at
screen_width minus three times the speed, and a concrete moved pipe is
kept by the removal pass because it is not offscreen. -/
theorem C8_witness :
    movePipe^[3] (generate_pipe pDemo 250) =
        (pDemo.screen_width - pipe_speed * ((3 : ℕ) : ℤ), 250) ∧
      ((100 - pipe_speed, 250) ∈
          (advancePipes pDemo { demoPlaying with pipes := [(100, 250)] }).1.pipes ↔
        ¬ (100 - pipe_speed < -pDemo.pipe_width)) := by
  constructor
  · exact (C8_pipe_motion pDemo).2.1 250 3
  · exact (C8_pipe_motion pDemo).2.2.2 { demoPlaying with pipes := [(100, 250)] }
      (100, 250) (by simp)

/-- Claim C10, counterexample: at program start last_pipe is now minus the
spawn interval, so on a first GAME_PLAYING iteration run at the very same
clock value exactly 3000 milliseconds (which is at least 3000) have
elapsed since the notional previous spawn, yet no obstacle is spawned,
because the check at line 621 is strict. -/
theorem C10_counterexample :
    (initState pDemo 5000).last_pipe = 5000 - pipe_frequency ∧
      pipe_frequency ≤ 5000 - (initState pDemo 5000).last_pipe ∧
      (tick pDemo ⟨[GEvent.keySpace], 5000, false, 300⟩
          (initState pDemo 5000)).1.game_state = Mode.GAME_PLAYING ∧
      (tick pDemo ⟨[GEvent.keySpace], 5000, false, 300⟩
          (initState pDemo 5000)).1.pipes = [] := by
  refine ⟨rfl, ?_, ?_, ?_⟩
  · norm_num [initState, pipe_frequency]
  · norm_num [tick, processEvents, handleEvent, playingStep, birdPhysicsPlaying,
      spawnPipes, advancePipes, pipeLoopAux, applyRemovals, pipeCollisionCheck,
      groundCheck, ceilingClamp, pyInt, gravitational_force, pipe_frequency,
      max_upward_angle, initState, pDemo]
  · norm_num [tick, processEvents, handleEvent, playingStep, birdPhysicsPlaying,
      spawnPipes, advancePipes, pipeLoopAux, applyRemovals, pipeCollisionCheck,
      groundCheck, ceilingClamp, pyInt, gravitational_force, pipe_frequency,
      max_upward_angle, initState, pDemo]

/-- Claim C10, amended: last_pipe is initialized at program start to the
clock value minus the spawn interval and the GAME_RESTART branch does not
touch it; a GAME_PLAYING iteration spawns exactly when STRICTLY more than
3000 milliseconds have elapsed since last_pipe, in which case the new pipe
(already moved once, at screen_width - pipe_speed) is in the live list and
last_pipe becomes the current clock value; otherwise last_pipe is
unchanged and the pipe list does not grow.  Consequently the first playing
iteration of the initial run spawns as soon as the clock has advanced past
the initialization value. -/
theorem C10_spawn_timer :
    (∀ (p : Params) (now0 : ℤ),
      (initState p now0).last_pipe = now0 - pipe_frequency) ∧
      (∀ (p : Params) (inp : TickInput) (s : GState),
        s.game_state = Mode.GAME_RESTART →
        (tick p inp s).1.last_pipe = s.last_pipe) ∧
      (∀ (p : Params) (inp : TickInput) (s : GState),
        s.game_state = Mode.GAME_PLAYING → inp.events = [] →
        pipe_frequency < inp.now - s.last_pipe →
        -p.pipe_width ≤ p.screen_width - pipe_speed →
        (tick p inp s).1.last_pipe = inp.now ∧
          (p.screen_width - pipe_speed, inp.gapY) ∈ (tick p inp s).1.pipes) ∧
      (∀ (p : Params) (inp : TickInput) (s : GState),
        s.game_state = Mode.GAME_PLAYING → inp.events = [] →
        ¬ pipe_frequency < inp.now - s.last_pipe →
        (tick p inp s).1.last_pipe = s.last_pipe ∧
          (tick p inp s).1.pipes.length ≤ s.pipes.length) := by
  refine ⟨fun p now0 => rfl, ?_, ?_, ?_⟩
  · intro p inp s hm
    have hpres := processEvents_preserved inp.events s
    have hgs : (processEvents s inp.events).1.game_state = Mode.GAME_RESTART := by
      rw [processEvents_game_state inp.events s (by rw [hm]; decide), hm]
    simp only [tick, hgs]
    exact ((restartStep_fields p _).2.2.2.2.2.2.2.2.2).trans hpres.2.2.2.2.2.1
  · intro p inp s hm hev hgt hwide
    have hpe : processEvents s inp.events = (s, []) := by rw [hev]; rfl
    simp only [tick, hpe, hm]
    simp only [playingStep]
    have u1 := birdPhysicsPlaying_untouched s
    have hsp := spawnPipes_spawn p inp (birdPhysicsPlaying s)
      (by rw [u1.2.2.2.2.1]; exact hgt)
    rw [hsp]
    constructor
    · simp [u1]
    · rw [(ceilingClamp_untouched _).2.1, (groundCheck_untouched p _).1,
        (pipeCollisionCheck_untouched inp _).2.2.2.1, advancePipes_pipes]
      refine List.mem_filter.mpr ⟨?_, ?_⟩
      · refine List.mem_map.mpr ⟨generate_pipe p inp.gapY, ?_, rfl⟩
        simp
      · simp only [movePipe, generate_pipe, offscreen, Bool.not_eq_true',
          decide_eq_false_iff_not]
        exact not_lt.mpr hwide
  · intro p inp s hm hev hngt
    have hpe : processEvents s inp.events = (s, []) := by rw [hev]; rfl
    simp only [tick, hpe, hm]
    simp only [playingStep]
    have u1 := birdPhysicsPlaying_untouched s
    have hsp := spawnPipes_skip p inp (birdPhysicsPlaying s)
      (by rw [u1.2.2.2.2.1]; exact hngt)
    rw [hsp]
    constructor
    · simp [u1]
    · rw [(ceilingClamp_untouched _).2.1, (groundCheck_untouched p _).1,
        (pipeCollisionCheck_untouched inp _).2.2.2.1, advancePipes_pipes,
        u1.2.1]
      exact le_trans (List.length_filter_le _ _)
        (le_of_eq (List.length_map _ _))

/-- Claim C10, witness: a playing iteration 3001 milliseconds after the
previous spawn does spawn (the moved pipe is live and the timer is reset
to the clock value), applied at the demo state. -/
theorem C10_witness :
    (tick pDemo ⟨[], 3001, false, 300⟩ demoPlaying).1.last_pipe = 3001 ∧
      (pDemo.screen_width - pipe_speed, 300) ∈
        (tick pDemo ⟨[], 3001, false, 300⟩ demoPlaying).1.pipes :=
  C10_spawn_timer.2.2.1 pDemo ⟨[], 3001, false, 300⟩ demoPlaying rfl rfl
    (by norm_num [pipe_frequency, demoPlaying])
    (by norm_num [pipe_speed, land_scroll_speed, pDemo])

end FlappyBird
